import Mathlib

/-!
Shallow embedding of the CKPG dashboard data pipeline (`ckpg_app.py`).

The source is a single script that loads a flat company/metric table and,
on every interaction, recomputes: a group (CKPG) filter, a universe/year
resolution, a sort-column resolution with a missingness fallback, a
null-drop + exclusion filter, a descending sort with top-K truncation,
and a melt (long-form reshape) for charting.

Modelling conventions:
* a data frame is a column list plus a row list; every pandas operation
  used by the script (`df[mask]`, `.copy()`, `.dropna`, `.sort_values`,
  `.head`, `.melt`) returns a new frame, so each is embedded as a pure
  function `Frame → Frame`;
* numeric cells are `Option ℚ` (`none` = NaN);
* `sort_values(..., na_position="last")` is called without a `kind`
  argument, so pandas uses its default quicksort, which fixes no tie
  order (quicksort is not a stable algorithm); the operation is
  therefore embedded twice: `sort_values_contract` is the relation
  capturing exactly what the call guarantees (a permutation whose
  non-missing rows come first in key order, missing rows last), and
  `sorted_rows` is one fixed executable outcome of that contract, used
  where the pipeline needs a concrete frame — everything read off
  `sorted_rows` elsewhere (lengths, permutation and sublist facts,
  block structure of `melt`) is invariant under tie order;
* `st.stop()` halts (lines 64-66 and 146-148 of the script), so the run
  is a value of `Except PipelineError PipelineOutput`.
-/

/-- Universe selection offered by the sidebar radio widget (line 49). -/
inductive Universe where
  | fourYear
  | fiveYear
  | complete
deriving DecidableEq

/-- Lines 53-55: years "19".."22" are always valid; "23" is appended
exactly for the 5-Year and the Complete universe. -/
def valid_years (u : Universe) : List String :=
  let base := ["19", "20", "21", "22"]
  if u = Universe.fiveYear ∨ u = Universe.complete then base ++ ["23"] else base

/-- One row of the summary table: the categorical columns `CKPG`, `Name`,
`Country` plus the year-tagged numeric cells, keyed by canonical column
name; a missing numeric cell (NaN) is `none`. -/
structure Row where
  ckpg : String
  name : String
  country : String
  vals : List (String × Option ℚ)
deriving DecidableEq

/-- Numeric cell of a row under a canonical column key; `none` when the
cell is missing or the key is not present. -/
def Row.get (r : Row) (c : String) : Option ℚ :=
  match r.vals.lookup c with
  | some v => v
  | none => none

/-- A data frame: the column list together with the rows. -/
structure Frame where
  cols : List String
  rows : List Row
deriving DecidableEq

/-- Lines 33-40: the metric catalog, one label mapped to its five
year-qualified canonical column keys. -/
def metric_columns : List (String × List String) :=
  [ ("Revenue (R) (USD Millions)", ["19", "20", "21", "22", "23"].map (· ++ "REV")),
    ("Investment (I) (USD Millions)", ["19", "20", "21", "22", "23"].map (· ++ "INV")),
    ("Sustainable Revenue (SR) (USD Millions)", ["19", "20", "21", "22", "23"].map (· ++ "SRV")),
    ("Sustainable Investment (SI) (USD Millions)", ["19", "20", "21", "22", "23"].map (· ++ "SIV")),
    ("Sustainable Revenue Ratio (SRR) (Ratio)", ["19", "20", "21", "22", "23"].map (· ++ "SRR")),
    ("Sustainable Investment Ratio (SIR) (Ratio)", ["19", "20", "21", "22", "23"].map (· ++ "SIR")) ]

/-- Lines 72-75: keep, per catalog entry, the columns whose 2-character
year prefix is a valid year of the selected universe. -/
def filtered_metric_columns (u : Universe) : List (String × List String) :=
  metric_columns.map (fun kv => (kv.1, kv.2.filter (fun col => (valid_years u).contains (col.take 2))))

/-- Line 76: flatten the filtered catalog values. -/
def available_metrics (u : Universe) : List String :=
  (filtered_metric_columns u).flatMap (·.2)

/-- Line 79. -/
def categorical_columns : List String := ["CKPG", "Name", "Country"]

/-- The sidebar selections of one interaction, as the script reads them
from the widgets; immutable for the duration of one recomputation. -/
structure Config where
  universe_toggle : Universe
  selected_ckpgs : List String
  selected_columns : List String
  sort_choice : String
  top_x : Nat
  exclude_rows : List String
  selected_y_axes : List String
  chart_sort_column : String
  chart_ascending : Bool
deriving DecidableEq

/-- Line 69: `df_summary[df_summary["CKPG"].isin(selected_ckpgs)].copy()`. -/
def ckpg_filter (f : Frame) (sel : List String) : Frame :=
  ⟨f.cols, f.rows.filter (fun r => decide (r.ckpg ∈ sel))⟩

/-- Line 111: `df_filtered.dropna(subset=[sort_column])`. -/
def dropna_on (f : Frame) (c : String) : Frame :=
  ⟨f.cols, f.rows.filter (fun r => (r.get c).isSome)⟩

/-- Line 112: `df_filtered[~df_filtered["Name"].isin(exclude_rows)]`. -/
def exclude_filter (f : Frame) (ex : List String) : Frame :=
  ⟨f.cols, f.rows.filter (fun r => !(ex.contains r.name))⟩

/-- Sort key of a row in a column: the numeric value, defaulted for the
missing case (missing rows are ordered separately, see `sorted_rows`). -/
def sort_key (c : String) (r : Row) : ℚ :=
  (r.get c).getD 0

/-- Row comparison used by `sort_values`: ascending or descending on the
numeric value of the sort column. -/
def rowLe (c : String) : Bool → Row → Row → Prop
  | true, r, s => sort_key c r ≤ sort_key c s
  | false, r, s => sort_key c s ≤ sort_key c r

instance instDecRowLe (c : String) (b : Bool) : DecidableRel (rowLe c b) :=
  match b with
  | true => fun r s => inferInstanceAs (Decidable (sort_key c r ≤ sort_key c s))
  | false => fun r s => inferInstanceAs (Decidable (sort_key c s ≤ sort_key c r))

instance instTotalRowLe (c : String) (b : Bool) : IsTotal Row (rowLe c b) where
  total := by
    cases b <;> intro x y <;> exact le_total _ _

instance instTransRowLe (c : String) (b : Bool) : IsTrans Row (rowLe c b) where
  trans := by
    cases b <;> (intro x y z h1 h2; first | exact le_trans h1 h2 | exact le_trans h2 h1)

/-- One fixed outcome of `sort_values(by=c, ascending=b,
na_position="last")`: the rows carrying a value in column `c`, sorted
on that value, followed by the rows missing `c`. The source's call
uses the default quicksort, which leaves tie order unspecified; this
representative resolves ties one way so the pipeline stays executable,
and is related to the call's actual guarantee by
`sort_values_contract` below. -/
def sorted_rows (c : String) (b : Bool) (rows : List Row) : List Row :=
  List.insertionSort (rowLe c b) (rows.filter (fun r => (r.get c).isSome))
    ++ rows.filter (fun r => !(r.get c).isSome)

/-- Frame-level `sort_values` (lines 115 and 158). -/
def sort_values (f : Frame) (c : String) (b : Bool) : Frame :=
  ⟨f.cols, sorted_rows c b f.rows⟩

/-- `.head(k)` (line 115). -/
def head_frame (f : Frame) (k : Nat) : Frame :=
  ⟨f.cols, f.rows.take k⟩

/-- Count of missing cells of a column (line 97, `isna().sum()`). -/
def isna_count (f : Frame) (c : String) : Nat :=
  (f.rows.filter (fun r => !(r.get c).isSome)).length

/-- Count of present cells of a column (line 98, `notna().sum()`). -/
def notna_count (f : Frame) (c : String) : Nat :=
  (f.rows.filter (fun r => (r.get c).isSome)).length

/-- Line 91: the selected display columns that are not categorical. -/
def numeric_sortable_columns (cfg : Config) : List String :=
  cfg.selected_columns.filter (fun c => !(categorical_columns.contains c))

/-- Line 94: the selectbox choice when any numeric sortable column
exists, the literal fallback "19REV" otherwise. -/
def initial_sort_column (cfg : Config) : String :=
  if numeric_sortable_columns cfg = [] then "19REV" else cfg.sort_choice

/-- Line 98 candidate predicate: the column's non-missing count exceeds
half the filtered row count. -/
def qualifies_as_fallback (f : Frame) (col : String) : Prop :=
  (notna_count f col : ℚ) > (f.rows.length : ℚ) * 0.5

instance (f : Frame) (col : String) : Decidable (qualifies_as_fallback f col) :=
  inferInstanceAs (Decidable (_ > _))

/-- Line 98: first numeric sortable column with more than half of its
values present, defaulting to "19REV". -/
def fallback_column (f : Frame) (cands : List String) : String :=
  (cands.find? (fun col => decide (qualifies_as_fallback f col))).getD "19REV"

/-- Line 97 trigger: strictly more than 80% of the sort column is
missing over the filtered frame. -/
def fallback_triggered (f : Frame) (c : String) : Prop :=
  (isna_count f c : ℚ) > (f.rows.length : ℚ) * 0.8

instance (f : Frame) (c : String) : Decidable (fallback_triggered f c) :=
  inferInstanceAs (Decidable (_ > _))

/-- Lines 97-100: the sort column actually used, together with the
advisory; `some (requested, substituted)` exactly when the fallback
fired (the `st.warning` naming both columns), `none` otherwise. -/
def resolve_sort_column (f : Frame) (cands : List String) (c0 : String) :
    String × Option (String × String) :=
  if fallback_triggered f c0 then
    (fallback_column f cands, some (c0, fallback_column f cands))
  else (c0, none)

/-- One long-form row produced by `melt` (line 160): the identifier
columns, the originating column key (`var_name="Metric"`) and its value
(`value_name="Value"`). -/
structure MeltedRow where
  ckpg : String
  name : String
  country : String
  metric : String
  value : Option ℚ
deriving DecidableEq

/-- The long-form row a source row contributes for one value column. -/
def melt_row (c : String) (r : Row) : MeltedRow :=
  ⟨r.ckpg, r.name, r.country, c, r.get c⟩

/-- Line 160: `melt(id_vars=["CKPG","Name","Country"], value_vars=...)`;
one block of output rows per value column, each block in frame row
order. -/
def melt (f : Frame) (value_vars : List String) : List MeltedRow :=
  value_vars.flatMap (fun c => f.rows.map (melt_row c))

/-- The two `st.stop()` halts of the script: empty CKPG selection
(lines 64-66) and no valid Y-axis metric (lines 146-148). -/
inductive PipelineError where
  | emptyCkpgSelection
  | noValidYAxes
deriving DecidableEq

/-- Everything one successful recomputation hands to the rendering
layer, plus the `df_summary` binding as it stands after the run. -/
structure PipelineOutput where
  df_table : Frame
  sort_column : String
  advisory : Option (String × String)
  valid_y_axes : List String
  df_melted : List MeltedRow
  df_summary : Frame
deriving DecidableEq

/-- Line 69 binding of `df_filtered`. -/
def df_filtered (raw : Frame) (cfg : Config) : Frame :=
  ckpg_filter raw cfg.selected_ckpgs

/-- Lines 94-100: resolved sort column and advisory over the grouped
frame. -/
def resolved_sort (raw : Frame) (cfg : Config) : String × Option (String × String) :=
  resolve_sort_column (df_filtered raw cfg) (numeric_sortable_columns cfg)
    (initial_sort_column cfg)

/-- The sort column the run actually uses. -/
def sort_column (raw : Frame) (cfg : Config) : String :=
  (resolved_sort raw cfg).1

/-- Lines 111-112 rebindings of `df_filtered`: drop rows missing the
sort column, then drop excluded names. -/
def df_filtered_final (raw : Frame) (cfg : Config) : Frame :=
  exclude_filter (dropna_on (df_filtered raw cfg) (sort_column raw cfg)) cfg.exclude_rows

/-- Line 115: `df_filtered.sort_values(by=sort_column, ascending=False,
na_position="last").head(top_x)`. -/
def df_table (raw : Frame) (cfg : Config) : Frame :=
  head_frame (sort_values (df_filtered_final raw cfg) (sort_column raw cfg) false) cfg.top_x

/-- Line 142: the selected Y-axis metrics present among the frame
columns. -/
def valid_y_axes (raw : Frame) (cfg : Config) : List String :=
  cfg.selected_y_axes.filter (fun c => (df_filtered_final raw cfg).cols.contains c)

/-- Lines 151 and 158: `df_chart = df_table.copy()` re-sorted by the
chart sort column. -/
def df_chart (raw : Frame) (cfg : Config) : Frame :=
  sort_values (df_table raw cfg) cfg.chart_sort_column cfg.chart_ascending

/-- Line 160 binding of `df_melted`. -/
def df_melted (raw : Frame) (cfg : Config) : List MeltedRow :=
  melt (df_chart raw cfg) (valid_y_axes raw cfg)

/-- One full top-to-bottom recomputation of the script over the loaded
(normalized) table and one interaction's configuration. -/
def run_pipeline (raw : Frame) (cfg : Config) : Except PipelineError PipelineOutput :=
  if cfg.selected_ckpgs = [] then Except.error PipelineError.emptyCkpgSelection
  else if valid_y_axes raw cfg = [] then Except.error PipelineError.noValidYAxes
  else Except.ok
    ⟨df_table raw cfg, sort_column raw cfg, (resolved_sort raw cfg).2,
      valid_y_axes raw cfg, df_melted raw cfg, raw⟩

/-- Constructor test for a run result, forcing only the variant. -/
def run_is_ok (e : Except PipelineError PipelineOutput) : Bool :=
  match e with
  | Except.ok _ => true
  | Except.error _ => false

/-- Modelled from the spec: the Statistical Outlier Analyzer of the
second (near-duplicate) pipeline file, which is not part of `src/`.
The spec prescribes Q1 and Q3 as the 25th and 75th percentile computed
by linear interpolation over the sorted values. -/
def percentile (xs : List ℚ) (p : ℚ) : ℚ :=
  let s := xs.insertionSort (· ≤ ·)
  if s.length = 0 then 0
  else
    let h : ℚ := p * ((s.length - 1 : Nat) : ℚ)
    let i : Nat := (⌊h⌋).toNat
    let lo := s.getD i 0
    let hi := s.getD (i + 1) lo
    lo + (h - (i : ℚ)) * (hi - lo)

/-- Modelled from the spec: first quartile of the analyzed column. -/
def q1_of (xs : List ℚ) : ℚ := percentile xs (1/4)

/-- Modelled from the spec: third quartile of the analyzed column. -/
def q3_of (xs : List ℚ) : ℚ := percentile xs (3/4)

/-- Modelled from the spec: the interquartile range `Q3 - Q1`. -/
def iqr_of (xs : List ℚ) : ℚ := q3_of xs - q1_of xs

/-- Modelled from the spec: the lower bound `Q1 - 1.5 * IQR`. -/
def lower_bound_of (xs : List ℚ) : ℚ := q1_of xs - 3/2 * iqr_of xs

/-- Modelled from the spec: the upper bound `Q3 + 1.5 * IQR`. -/
def upper_bound_of (xs : List ℚ) : ℚ := q3_of xs + 3/2 * iqr_of xs

/-- Modelled from the spec: the values lying inside the outlier
bounds. -/
def in_bound_of (xs : List ℚ) : List ℚ :=
  xs.filter (fun v => decide (lower_bound_of xs ≤ v ∧ v ≤ upper_bound_of xs))

/-- Modelled from the spec: the whisker minimum, the smallest in-bound
value actually present (none when no value is in bound). -/
def whisker_min_of (xs : List ℚ) : Option ℚ := (in_bound_of xs).min?

/-- Modelled from the spec: the whisker maximum, the largest in-bound
value actually present (none when no value is in bound). -/
def whisker_max_of (xs : List ℚ) : Option ℚ := (in_bound_of xs).max?

/-- Modelled from the spec: the regular partition, the values between
the whiskers; empty when the whiskers do not exist. -/
def regular_of (xs : List ℚ) : List ℚ :=
  match whisker_min_of xs, whisker_max_of xs with
  | some a, some b => xs.filter (fun v => decide (a ≤ v ∧ v ≤ b))
  | _, _ => []

/-- Modelled from the spec: the outlier partition, the values strictly
outside the bounds. -/
def outliers_of (xs : List ℚ) : List ℚ :=
  xs.filter (fun v => decide (v < lower_bound_of xs ∨ upper_bound_of xs < v))

/-- Un-melt, written from the spec's words for the round-trip check:
pivoting the long-form rows of one metric name back to the identifier
columns paired with that metric's value. -/
def unmelt_column (m : List MeltedRow) (c : String) :
    List (String × String × String × Option ℚ) :=
  (m.filter (fun x => x.metric == c)).map (fun x => (x.ckpg, x.name, x.country, x.value))

/-- A concrete summary-table row used to exercise the pipeline. -/
def demo_row : Row := ⟨"A", "Acme", "US", [("19REV", some 5)]⟩

/-- A concrete loaded table: the categorical columns plus two revenue
columns, holding `demo_row`. -/
def demo_raw : Frame := ⟨["CKPG", "Name", "Country", "19REV", "20REV"], [demo_row]⟩

/-- A configuration whose run succeeds end to end. -/
def cfg_demo : Config :=
  ⟨Universe.fourYear, ["A"], ["CKPG", "Name", "19REV"], "19REV", 10, [], ["19REV"], "19REV", false⟩

/-- The output `run_pipeline demo_raw cfg_demo` produces. -/
def out_demo : PipelineOutput :=
  ⟨⟨["CKPG", "Name", "Country", "19REV", "20REV"], [demo_row]⟩, "19REV", none, ["19REV"],
    [⟨"A", "Acme", "US", "19REV", some 5⟩], demo_raw⟩

/-- A configuration with an empty CKPG selection. -/
def cfg_empty_sel : Config :=
  ⟨Universe.fourYear, [], ["CKPG", "Name", "19REV"], "19REV", 10, [], ["19REV"], "19REV", false⟩

/-- A row whose `19REV` cell is missing but whose `20REV` cell is
present. -/
def fallback_row : Row := ⟨"A", "Beta", "DE", [("19REV", none), ("20REV", some 3)]⟩

/-- A one-row frame over which the requested sort column `19REV` is
100% missing, so the fallback fires. -/
def fallback_frame : Frame := ⟨["CKPG", "Name", "Country", "19REV", "20REV"], [fallback_row]⟩

/-- A configuration selecting no numeric display column at all, so no
sort candidate exists (line 94 of the script). -/
def cfg_no_numeric : Config :=
  ⟨Universe.fourYear, ["A"], ["CKPG", "Name"], "", 10, [], ["19REV"], "19REV", false⟩

/-- What `sort_values(by=c, ascending=b, na_position="last")` with the
default `kind` (quicksort, not a stable algorithm) guarantees about its
output, and nothing more: the output is a permutation of the input
consisting of the rows with a value in `c`, ordered on that value, in
front of the rows missing `c`. The relative order of rows tied on the
sort value — and of the missing rows — is not fixed by the call. -/
def sort_values_contract (c : String) (b : Bool) (rows out : List Row) : Prop :=
  out.Perm rows
  ∧ ∃ A B, out = A ++ B
      ∧ A.Sorted (rowLe c b)
      ∧ (∀ r ∈ A, (r.get c).isSome = true)
      ∧ (∀ r ∈ B, r.get c = none)

/-- First of two rows tied on the `19REV` sort value. -/
def tie_row1 : Row := ⟨"A", "Tie One", "US", [("19REV", some 7)]⟩

/-- Second of two rows tied on the `19REV` sort value. -/
def tie_row2 : Row := ⟨"A", "Tie Two", "US", [("19REV", some 7)]⟩

lemma sorted_rows_perm (c : String) (b : Bool) (rows : List Row) :
    (sorted_rows c b rows).Perm rows :=
  ((List.perm_insertionSort _ _).append_right _).trans (List.filter_append_perm _ _)

lemma length_sorted_rows (c : String) (b : Bool) (rows : List Row) :
    (sorted_rows c b rows).length = rows.length :=
  (sorted_rows_perm c b rows).length_eq

lemma mem_sorted_present {c : String} {b : Bool} {rows : List Row} {r : Row}
    (hr : r ∈ List.insertionSort (rowLe c b) (rows.filter (fun r => (r.get c).isSome))) :
    (r.get c).isSome = true :=
  (List.mem_filter.mp ((List.perm_insertionSort _ _).mem_iff.mp hr)).2

lemma run_pipeline_ok_inv {raw : Frame} {cfg : Config} {out : PipelineOutput}
    (h : run_pipeline raw cfg = Except.ok out) :
    out = ⟨df_table raw cfg, sort_column raw cfg, (resolved_sort raw cfg).2,
        valid_y_axes raw cfg, df_melted raw cfg, raw⟩
      ∧ cfg.selected_ckpgs ≠ [] ∧ valid_y_axes raw cfg ≠ [] := by
  unfold run_pipeline at h
  split at h
  · simp at h
  · split at h
    · simp at h
    · next h1 h2 =>
      injection h with h3
      exact ⟨h3.symm, h1, h2⟩

/-- C8: the universe-to-years resolver is the total function mapping
4-Year to {19,20,21,22}, adding "23" for 5-Year and Complete, with the
monotonic inclusion chain 4-Year ⊆ 5-Year ⊆ Complete. -/
theorem valid_years_resolver_spec :
    valid_years Universe.fourYear = ["19", "20", "21", "22"]
    ∧ valid_years Universe.fiveYear = ["19", "20", "21", "22", "23"]
    ∧ valid_years Universe.complete = ["19", "20", "21", "22", "23"]
    ∧ valid_years Universe.fourYear ⊆ valid_years Universe.fiveYear
    ∧ valid_years Universe.fiveYear ⊆ valid_years Universe.complete := by
  refine ⟨rfl, rfl, rfl, ?_, ?_⟩ <;> decide

/-- C1: every row surviving the CKPG filter has its CKPG value in the
selection, and an empty selection halts the recomputation with the
user-input error, producing no output table at all. -/
theorem ckpg_filter_spec (raw : Frame) (cfg : Config) :
    (∀ r ∈ (df_filtered raw cfg).rows, r.ckpg ∈ cfg.selected_ckpgs)
    ∧ (cfg.selected_ckpgs = [] →
        run_pipeline raw cfg = Except.error PipelineError.emptyCkpgSelection) := by
  constructor
  · intro r hr
    simp only [df_filtered, ckpg_filter] at hr
    exact of_decide_eq_true (List.mem_filter.mp hr).2
  · intro h
    simp [run_pipeline, h]

/-- Witness for C1 at a concrete table and an empty selection. -/
theorem ckpg_filter_spec_witness :
    run_pipeline demo_raw cfg_empty_sel = Except.error PipelineError.emptyCkpgSelection :=
  (ckpg_filter_spec demo_raw cfg_empty_sel).2 rfl

/-- C2 counterexample: on two rows tied on the sort value, the sort
call of lines 115/158 (default kind = quicksort, documented as not a
stable algorithm) admits both relative orders of the tied pair, so
neither stability nor even identical row order across repeated sorts
is a guarantee of the program. -/
theorem sort_stability_counterexample :
    sort_values_contract "19REV" false [tie_row1, tie_row2] [tie_row1, tie_row2]
    ∧ sort_values_contract "19REV" false [tie_row1, tie_row2] [tie_row2, tie_row1]
    ∧ ([tie_row1, tie_row2] : List Row) ≠ [tie_row2, tie_row1]
    ∧ ¬ (∀ out1 out2, sort_values_contract "19REV" false [tie_row1, tie_row2] out1 →
          sort_values_contract "19REV" false [tie_row1, tie_row2] out2 → out1 = out2) := by
  have htie1 : rowLe "19REV" false tie_row1 tie_row2 := by
    show sort_key "19REV" tie_row2 ≤ sort_key "19REV" tie_row1
    decide
  have htie2 : rowLe "19REV" false tie_row2 tie_row1 := by
    show sort_key "19REV" tie_row1 ≤ sort_key "19REV" tie_row2
    decide
  have h1 : sort_values_contract "19REV" false [tie_row1, tie_row2] [tie_row1, tie_row2] := by
    refine ⟨List.Perm.refl _, [tie_row1, tie_row2], [], rfl, ?_, ?_, ?_⟩
    · exact List.sorted_cons.mpr ⟨fun r hr => by rw [List.mem_singleton.mp hr]; exact htie1,
        List.sorted_singleton _⟩
    · intro r hr
      rcases List.mem_cons.mp hr with h | h
      · rw [h]; decide
      · rw [List.mem_singleton.mp h]; decide
    · intro r hr
      exact absurd hr (List.not_mem_nil r)
  have h2 : sort_values_contract "19REV" false [tie_row1, tie_row2] [tie_row2, tie_row1] := by
    refine ⟨List.Perm.swap tie_row1 tie_row2 [], [tie_row2, tie_row1], [], rfl, ?_, ?_, ?_⟩
    · exact List.sorted_cons.mpr ⟨fun r hr => by rw [List.mem_singleton.mp hr]; exact htie2,
        List.sorted_singleton _⟩
    · intro r hr
      rcases List.mem_cons.mp hr with h | h
      · rw [h]; decide
      · rw [List.mem_singleton.mp h]; decide
    · intro r hr
      exact absurd hr (List.not_mem_nil r)
  have hne : ([tie_row1, tie_row2] : List Row) ≠ [tie_row2, tie_row1] := by decide
  exact ⟨h1, h2, hne, fun hall => absurd (hall _ _ h1 h2) hne⟩

/-- C2 as amended: the sort call only pins the output down to tie
order, so for every outcome it admits, the rows missing the sort
column appear after every non-missing row regardless of direction, and
the row count is preserved; the executable representative
`sorted_rows` is one admissible outcome; and the top-K truncation of
line 115 happens strictly after the sort. -/
theorem sort_stage_contract_spec (rows out : List Row) (c : String) (b : Bool)
    (raw : Frame) (cfg : Config) (h : sort_values_contract c b rows out) :
    (∃ A B, out = A ++ B
        ∧ (∀ r ∈ A, (r.get c).isSome = true) ∧ (∀ r ∈ B, r.get c = none))
    ∧ out.length = rows.length
    ∧ sort_values_contract c b rows (sorted_rows c b rows)
    ∧ df_table raw cfg
        = head_frame (sort_values (df_filtered_final raw cfg) (sort_column raw cfg) false)
            cfg.top_x := by
  obtain ⟨hperm, A, B, hAB, hsort, hA, hB⟩ := h
  refine ⟨⟨A, B, hAB, hA, hB⟩, hperm.length_eq, ?_, rfl⟩
  refine ⟨sorted_rows_perm c b rows,
    List.insertionSort (rowLe c b) (rows.filter (fun r => (r.get c).isSome)),
    rows.filter (fun r => !(r.get c).isSome), rfl,
    List.sorted_insertionSort (rowLe c b) _,
    fun r hr => mem_sorted_present hr, fun r hr => ?_⟩
  have h2 := (List.mem_filter.mp hr).2
  simp only [Bool.not_eq_true'] at h2
  exact Option.not_isSome_iff_eq_none.mp (by simp [h2])

/-- Witness for the amended C2 at a concrete one-row table. -/
theorem sort_stage_contract_spec_witness :
    sort_values_contract "19REV" false [demo_row] (sorted_rows "19REV" false [demo_row]) := by
  have hdemo : sort_values_contract "19REV" false [demo_row] [demo_row] := by
    refine ⟨List.Perm.refl _, [demo_row], [], rfl, List.sorted_singleton _, ?_, ?_⟩
    · intro r hr
      rw [List.mem_singleton.mp hr]
      decide
    · intro r hr
      exact absurd hr (List.not_mem_nil r)
  exact (sort_stage_contract_spec [demo_row] [demo_row] "19REV" false demo_raw cfg_demo
    hdemo).2.2.1

/-- C6: the ranked table of a successful run has exactly
min(K, rows surviving the group, null-drop and exclusion filters)
rows. -/
theorem top_k_length_spec (raw : Frame) (cfg : Config) (out : PipelineOutput)
    (h : run_pipeline raw cfg = Except.ok out) :
    out.df_table.rows.length = min cfg.top_x (df_filtered_final raw cfg).rows.length := by
  obtain ⟨hout, -, -⟩ := run_pipeline_ok_inv h
  subst hout
  show (df_table raw cfg).rows.length = _
  unfold df_table head_frame sort_values
  rw [List.length_take, length_sorted_rows]

lemma melt_length (f : Frame) (vs : List String) :
    (melt f vs).length = vs.length * f.rows.length := by
  unfold melt
  induction vs with
  | nil => simp
  | cons c t ih =>
    simp only [List.flatMap_cons, List.length_append, List.length_map, ih,
      List.length_cons]
    ring

lemma filter_melt_block (rows : List Row) (cd d : String) :
    (rows.map (melt_row cd)).filter (fun x => x.metric == d)
      = if cd = d then rows.map (melt_row cd) else [] := by
  induction rows with
  | nil => simp
  | cons r t ih =>
    simp only [List.map_cons, List.filter_cons]
    by_cases h : cd = d
    · subst h
      simp [melt_row, ih]
    · simp [melt_row, h, ih]

/-- C10: the chart stage melts the top-K table (line 151), so a
successful run's long-form structure has exactly
(rows of the top-K table) × (valid Y-axis metrics) entries, and the
top-K table itself never exceeds K rows. -/
theorem chart_consumes_top_k (raw : Frame) (cfg : Config) (out : PipelineOutput)
    (h : run_pipeline raw cfg = Except.ok out) :
    out.df_melted.length = out.df_table.rows.length * out.valid_y_axes.length
    ∧ out.df_table.rows.length ≤ cfg.top_x := by
  obtain ⟨hout, -, -⟩ := run_pipeline_ok_inv h
  subst hout
  constructor
  · show (df_melted raw cfg).length = (df_table raw cfg).rows.length * (valid_y_axes raw cfg).length
    unfold df_melted
    rw [melt_length]
    unfold df_chart sort_values
    show (valid_y_axes raw cfg).length * (sorted_rows _ _ (df_table raw cfg).rows).length = _
    rw [length_sorted_rows, Nat.mul_comm]
  · show (df_table raw cfg).rows.length ≤ cfg.top_x
    unfold df_table head_frame
    exact List.length_take_le _ _

/-- C9: the filters operate on copies, so one full recomputation leaves
the loaded table untouched: the `df_summary` binding after a successful
run is the input table, and each filter only drops rows, returning a
sublist of its input frame's rows. -/
theorem raw_table_preserved (raw : Frame) (cfg : Config) :
    (∀ out, run_pipeline raw cfg = Except.ok out → out.df_summary = raw)
    ∧ (df_filtered raw cfg).rows.Sublist raw.rows
    ∧ (∀ (f : Frame) (c : String) (ex : List String),
        (dropna_on f c).rows.Sublist f.rows ∧ (exclude_filter f ex).rows.Sublist f.rows) := by
  refine ⟨?_, List.filter_sublist _, fun f c ex => ⟨List.filter_sublist _, List.filter_sublist _⟩⟩
  intro out h
  obtain ⟨hout, -, -⟩ := run_pipeline_ok_inv h
  rw [hout]

/-- C5: melting over two distinct value columns produces one long-form
row per (table row × column), in blocks that preserve the incoming row
order, and un-melting recovers each original column's values. -/
theorem melt_round_trip (f : Frame) (A B : String) (h : A ≠ B) :
    unmelt_column (melt f [A, B]) A
        = f.rows.map (fun r => (r.ckpg, r.name, r.country, r.get A))
    ∧ unmelt_column (melt f [A, B]) B
        = f.rows.map (fun r => (r.ckpg, r.name, r.country, r.get B))
    ∧ (melt f [A, B]).length = f.rows.length * 2 := by
  have hm : melt f [A, B] = f.rows.map (melt_row A) ++ f.rows.map (melt_row B) := by
    simp [melt]
  refine ⟨?_, ?_, ?_⟩
  · unfold unmelt_column
    rw [hm, List.filter_append, filter_melt_block, filter_melt_block, if_pos rfl,
      if_neg (Ne.symm h), List.append_nil, List.map_map]
    rfl
  · unfold unmelt_column
    rw [hm, List.filter_append, filter_melt_block, filter_melt_block, if_neg h,
      if_pos rfl, List.nil_append, List.map_map]
    rfl
  · rw [hm]
    simp only [List.length_append, List.length_map]
    omega

/-- Witness for C5 at a concrete frame and the columns 19REV, 20REV. -/
theorem melt_round_trip_witness :
    unmelt_column (melt demo_raw ["19REV", "20REV"]) "19REV"
      = demo_raw.rows.map (fun r => (r.ckpg, r.name, r.country, r.get "19REV")) :=
  (melt_round_trip demo_raw "19REV" "20REV" (by decide)).1

lemma find?_first {α : Type} {p : α → Bool} {d : α} (l1 l2 : List α)
    (hq : p d = true) (hl1 : ∀ e ∈ l1, ¬p e = true) :
    (l1 ++ d :: l2).find? p = some d := by
  induction l1 with
  | nil => simp [List.find?_cons_of_pos, hq]
  | cons e t ih =>
    rw [List.cons_append, List.find?_cons_of_neg _ (hl1 e (by simp))]
    exact ih (fun x hx => hl1 x (by simp [hx]))

/-- C3: the sort-column fallback fires exactly when the requested
column is strictly more than 80% missing over the filtered table; it
then substitutes the first candidate column strictly more than 50%
present — the fixed default 19REV when none qualifies — and reports the
advisory pair (requested, substituted) instead of staying silent. -/
theorem sort_fallback_spec (f : Frame) (cands : List String) (c0 : String) :
    (fallback_triggered f c0 →
        resolve_sort_column f cands c0
          = (fallback_column f cands, some (c0, fallback_column f cands)))
    ∧ (¬fallback_triggered f c0 → resolve_sort_column f cands c0 = (c0, none))
    ∧ (∀ l1 l2 d, cands = l1 ++ d :: l2 → qualifies_as_fallback f d →
        (∀ e ∈ l1, ¬qualifies_as_fallback f e) → fallback_column f cands = d)
    ∧ ((∀ d ∈ cands, ¬qualifies_as_fallback f d) → fallback_column f cands = "19REV") := by
  refine ⟨fun h => by simp [resolve_sort_column, h],
    fun h => by simp [resolve_sort_column, h], ?_, ?_⟩
  · intro l1 l2 d hc hq hl1
    subst hc
    unfold fallback_column
    rw [find?_first l1 l2 (decide_eq_true hq) (fun e he => by simpa using hl1 e he)]
    rfl
  · intro hall
    unfold fallback_column
    rw [List.find?_eq_none.mpr (fun x hx => by simpa using hall x hx)]
    rfl

/-- Witness for C3: over `fallback_frame` the requested column 19REV is
100% missing and 20REV is 100% present, so the run substitutes 20REV
and reports the advisory naming both columns. -/
theorem sort_fallback_spec_witness :
    resolve_sort_column fallback_frame ["20REV"] "19REV"
      = ("20REV", some ("19REV", "20REV")) := by
  have htr : fallback_triggered fallback_frame "19REV" := by
    show (isna_count fallback_frame "19REV" : ℚ) > (fallback_frame.rows.length : ℚ) * 0.8
    rw [show isna_count fallback_frame "19REV" = 1 from rfl,
      show fallback_frame.rows.length = 1 from rfl]
    norm_num
  have hq : qualifies_as_fallback fallback_frame "20REV" := by
    show (notna_count fallback_frame "20REV" : ℚ) > (fallback_frame.rows.length : ℚ) * 0.5
    rw [show notna_count fallback_frame "20REV" = 1 from rfl,
      show fallback_frame.rows.length = 1 from rfl]
    norm_num
  have h1 := (sort_fallback_spec fallback_frame ["20REV"] "19REV").1 htr
  have h2 := (sort_fallback_spec fallback_frame ["20REV"] "19REV").2.2.1 [] [] "20REV" rfl hq
    (by simp)
  rw [h2] at h1
  exact h1

lemma resolved_sort_demo : resolved_sort demo_raw cfg_demo = ("19REV", none) := by
  have hnt : ¬ fallback_triggered (df_filtered demo_raw cfg_demo) "19REV" := by
    show ¬ ((isna_count (df_filtered demo_raw cfg_demo) "19REV" : ℚ)
      > ((df_filtered demo_raw cfg_demo).rows.length : ℚ) * 0.8)
    rw [show isna_count (df_filtered demo_raw cfg_demo) "19REV" = 0 from rfl,
      show (df_filtered demo_raw cfg_demo).rows.length = 1 from rfl]
    norm_num
  unfold resolved_sort resolve_sort_column
  rw [show initial_sort_column cfg_demo = "19REV" from rfl, if_neg hnt]

lemma run_pipeline_demo : run_pipeline demo_raw cfg_demo = Except.ok out_demo := by
  have hsc : sort_column demo_raw cfg_demo = "19REV" := by
    unfold sort_column
    rw [resolved_sort_demo]
  unfold run_pipeline
  rw [if_neg (by decide), if_neg (by decide)]
  unfold df_melted df_chart df_table df_filtered_final valid_y_axes
  rw [hsc, resolved_sort_demo]
  rfl

/-- Witness for C6 at the concrete demo run. -/
theorem top_k_length_spec_witness :
    out_demo.df_table.rows.length = min cfg_demo.top_x (df_filtered_final demo_raw cfg_demo).rows.length :=
  top_k_length_spec demo_raw cfg_demo out_demo run_pipeline_demo

/-- Witness for C10 at the concrete demo run. -/
theorem chart_consumes_top_k_witness :
    out_demo.df_melted.length = out_demo.df_table.rows.length * out_demo.valid_y_axes.length
    ∧ out_demo.df_table.rows.length ≤ cfg_demo.top_x :=
  chart_consumes_top_k demo_raw cfg_demo out_demo run_pipeline_demo

/-- Witness for C9 at the concrete demo run. -/
theorem raw_table_preserved_witness : out_demo.df_summary = demo_raw :=
  (raw_table_preserved demo_raw cfg_demo).1 out_demo run_pipeline_demo

/-- C7 counterexample: with `cfg_no_numeric` no numeric sortable column
exists, yet the recomputation does not halt with a blocking error — it
completes successfully, sorting by the substituted default column
19REV. -/
theorem no_sort_candidate_counterexample :
    numeric_sortable_columns cfg_no_numeric = []
    ∧ run_is_ok (run_pipeline demo_raw cfg_no_numeric) = true
    ∧ sort_column demo_raw cfg_no_numeric = "19REV" := by
  refine ⟨rfl, by decide, ?_⟩
  have hnt : ¬ fallback_triggered (df_filtered demo_raw cfg_no_numeric) "19REV" := by
    show ¬ ((isna_count (df_filtered demo_raw cfg_no_numeric) "19REV" : ℚ)
      > ((df_filtered demo_raw cfg_no_numeric).rows.length : ℚ) * 0.8)
    rw [show isna_count (df_filtered demo_raw cfg_no_numeric) "19REV" = 0 from rfl,
      show (df_filtered demo_raw cfg_no_numeric).rows.length = 1 from rfl]
    norm_num
  unfold sort_column resolved_sort resolve_sort_column
  rw [show initial_sort_column cfg_no_numeric = "19REV" from rfl, if_neg hnt]

/-- C7 as amended: when no numeric sortable column exists, the script
does not halt; it silently adopts the fixed default column 19REV as the
sort column and, when the group selection and Y-axis guards pass, the
run completes and reports 19REV as the column used. -/
theorem no_sort_candidate_default (raw : Frame) (cfg : Config)
    (h : numeric_sortable_columns cfg = [])
    (h1 : cfg.selected_ckpgs ≠ [])
    (h2 : valid_y_axes raw cfg ≠ []) :
    sort_column raw cfg = "19REV"
    ∧ ∃ out, run_pipeline raw cfg = Except.ok out ∧ out.sort_column = "19REV" := by
  have hinit : initial_sort_column cfg = "19REV" := by
    unfold initial_sort_column
    rw [if_pos h]
  have hsc : sort_column raw cfg = "19REV" := by
    unfold sort_column resolved_sort resolve_sort_column
    rw [hinit, h]
    split
    · simp [fallback_column]
    · rfl
  refine ⟨hsc, ⟨⟨df_table raw cfg, sort_column raw cfg, (resolved_sort raw cfg).2,
    valid_y_axes raw cfg, df_melted raw cfg, raw⟩, ?_, hsc⟩⟩
  unfold run_pipeline
  rw [if_neg h1, if_neg h2]

/-- Witness for the amended C7 at the concrete no-candidate run. -/
theorem no_sort_candidate_default_witness :
    sort_column demo_raw cfg_no_numeric = "19REV" :=
  (no_sort_candidate_default demo_raw cfg_no_numeric rfl (by decide) (by decide)).1

lemma demo_sorted :
    ([1, 2, 3, 4, 5, 100] : List ℚ).insertionSort (· ≤ ·) = [1, 2, 3, 4, 5, 100] := by
  decide

lemma q1_demo : q1_of [1, 2, 3, 4, 5, 100] = 9/4 := by
  unfold q1_of percentile
  rw [demo_sorted]
  norm_num [List.getD]

lemma q3_demo : q3_of [1, 2, 3, 4, 5, 100] = 19/4 := by
  unfold q3_of percentile
  rw [demo_sorted]
  norm_num [List.getD, show Int.toNat 3 = 3 from rfl]

lemma iqr_demo : iqr_of [1, 2, 3, 4, 5, 100] = 5/2 := by
  unfold iqr_of
  rw [q1_demo, q3_demo]
  norm_num

lemma lb_demo : lower_bound_of [1, 2, 3, 4, 5, 100] = -(3/2) := by
  unfold lower_bound_of
  rw [q1_demo, iqr_demo]
  norm_num

lemma ub_demo : upper_bound_of [1, 2, 3, 4, 5, 100] = 17/2 := by
  unfold upper_bound_of
  rw [q3_demo, iqr_demo]
  norm_num

lemma in_bound_demo : in_bound_of [1, 2, 3, 4, 5, 100] = [1, 2, 3, 4, 5] := by
  unfold in_bound_of
  rw [lb_demo, ub_demo]
  norm_num [List.filter]

lemma wmax_demo : whisker_max_of [1, 2, 3, 4, 5, 100] = some 5 := by
  unfold whisker_max_of
  rw [in_bound_demo]
  norm_num [List.max?, List.foldl, max_def]

lemma wmin_demo : whisker_min_of [1, 2, 3, 4, 5, 100] = some 1 := by
  unfold whisker_min_of
  rw [in_bound_demo]
  norm_num [List.min?, List.foldl, min_def]

lemma outliers_demo : outliers_of [1, 2, 3, 4, 5, 100] = [100] := by
  unfold outliers_of
  rw [lb_demo, ub_demo]
  norm_num [List.filter]

lemma regular_demo : regular_of [1, 2, 3, 4, 5, 100] = [1, 2, 3, 4, 5] := by
  unfold regular_of
  rw [wmin_demo, wmax_demo]
  norm_num [List.filter]

lemma mem_in_bound_bounds {xs : List ℚ} {v : ℚ} (h : v ∈ in_bound_of xs) :
    lower_bound_of xs ≤ v ∧ v ≤ upper_bound_of xs :=
  of_decide_eq_true (List.mem_filter.mp h).2

lemma outlier_partition_disjoint (xs : List ℚ) (v : ℚ) (hv : v ∈ regular_of xs) :
    v ∉ outliers_of xs := by
  intro hout
  have hbad := of_decide_eq_true (List.mem_filter.mp hout).2
  unfold regular_of at hv
  cases hmin : whisker_min_of xs with
  | none => rw [hmin] at hv; simp at hv
  | some a =>
    cases hmax : whisker_max_of xs with
    | none => rw [hmin, hmax] at hv; simp at hv
    | some b =>
      rw [hmin, hmax] at hv
      have hvab := of_decide_eq_true (List.mem_filter.mp hv).2
      have hain : a ∈ in_bound_of xs := List.min?_mem (fun x y => min_choice x y) hmin
      have hbin : b ∈ in_bound_of xs := List.max?_mem (fun x y => max_choice x y) hmax
      have hla := (mem_in_bound_bounds hain).1
      have hub := (mem_in_bound_bounds hbin).2
      rcases hbad with h | h
      · exact absurd (le_trans hla hvab.1) (not_le.mpr h)
      · exact absurd (le_trans hvab.2 hub) (not_le.mpr h)

/-- C4: the outlier analyzer (modelled from the spec; its file is not
in `src/`) never places a value in both the regular and the outlier
partition, and on the spec's scenario [1,2,3,4,5,100] it computes
Q1 = 2.25, Q3 = 4.75, IQR = 2.5, bounds [-1.5, 8.5], whisker max 5,
regular values [1,2,3,4,5] and outliers {100}. -/
theorem outlier_analyzer_spec :
    (∀ (xs : List ℚ) (v : ℚ), v ∈ regular_of xs → v ∉ outliers_of xs)
    ∧ q1_of [1, 2, 3, 4, 5, 100] = 9/4
    ∧ q3_of [1, 2, 3, 4, 5, 100] = 19/4
    ∧ iqr_of [1, 2, 3, 4, 5, 100] = 5/2
    ∧ lower_bound_of [1, 2, 3, 4, 5, 100] = -(3/2)
    ∧ upper_bound_of [1, 2, 3, 4, 5, 100] = 17/2
    ∧ whisker_max_of [1, 2, 3, 4, 5, 100] = some 5
    ∧ regular_of [1, 2, 3, 4, 5, 100] = [1, 2, 3, 4, 5]
    ∧ outliers_of [1, 2, 3, 4, 5, 100] = [100] :=
  ⟨outlier_partition_disjoint, q1_demo, q3_demo, iqr_demo, lb_demo, ub_demo,
    wmax_demo, regular_demo, outliers_demo⟩

/-- Witness for C4: the regular value 1 of the scenario is not an
outlier. -/
theorem outlier_analyzer_spec_witness : (1 : ℚ) ∉ outliers_of [1, 2, 3, 4, 5, 100] :=
  outlier_analyzer_spec.1 [1, 2, 3, 4, 5, 100] 1
    (by rw [outlier_analyzer_spec.2.2.2.2.2.2.2.1]; exact List.mem_cons_self 1 _)
